import Mathlib

/-!
Verification development for the dynamo-eventdb repository.

The development shallowly embeds the core of the repository:
the Cloudevent codec, the key scheme (composite `time_type` sort key),
the `EventDB` storage service (batch append, point lookup by id,
paginated queries with a valid/invalid split) and the change-feed
publishing pipeline (`Publisher.processRecord`, `PublishHandler.handle`).
The durable store and the fan-out transport are modelled as explicit
oracles (response sequences and result functions), matching the way the
code treats them as injected capabilities.
-/

/-- JSON-like payload of an event. The code never inspects the payload, it
only carries it along, so it is modelled as a string-to-string map. -/
abbrev Payload := List (String × String)

/-- Decimal digit character with code point 48 + n, as produced by
JavaScript number-to-string for a single digit. -/
def digitChar (n : Nat) : Char := Char.ofNat (48 + n)

/-- Fuel-indexed helper for `natChars`; the fuel only forces structural
termination and is irrelevant as long as it exceeds the argument. -/
def natCharsAux : Nat → Nat → List Char
  | 0, _ => []
  | fuel + 1, n =>
    if n < 10 then [digitChar n]
    else natCharsAux fuel (n / 10) ++ [digitChar (n % 10)]

/-- Decimal rendering of a natural number as a character list, most
significant digit first, modelling JavaScript template-literal
stringification of a nonnegative integer. No zero padding. -/
def natChars (n : Nat) : List Char := natCharsAux (n + 1) n

/-- Decimal rendering as a string. -/
def natRepr (n : Nat) : String := ⟨natChars n⟩

theorem natCharsAux_fuel (n : Nat) : ∀ f1 f2, n < f1 → n < f2 →
    natCharsAux f1 n = natCharsAux f2 n := by
  induction n using Nat.strong_induction_on with
  | _ n ih =>
    intro f1 f2 h1 h2
    match f1, f2 with
    | g1 + 1, g2 + 1 =>
      by_cases h : n < 10
      · simp [natCharsAux, h]
      · have hdiv : n / 10 < n := Nat.div_lt_self (by omega) (by omega)
        simp only [natCharsAux, if_neg h]
        rw [ih (n / 10) hdiv g1 g2 (by omega) (by omega)]

theorem natCharsAux_succ (fuel n : Nat) (h : ¬ n < 10) :
    natCharsAux (fuel + 1) n =
      natCharsAux fuel (n / 10) ++ [digitChar (n % 10)] := by
  simp [natCharsAux, h]

/-- Unfolding equation for `natChars`, recovering the direct recursive
form of decimal rendering. -/
theorem natChars_eq (n : Nat) : natChars n =
    if n < 10 then [digitChar n]
    else natChars (n / 10) ++ [digitChar (n % 10)] := by
  by_cases h : n < 10
  · simp [natChars, natCharsAux, h]
  · rw [if_neg h]
    show natCharsAux (n + 1) n = _
    rw [natCharsAux_succ n n h,
      natCharsAux_fuel (n / 10) n (n / 10 + 1)
        (Nat.div_lt_self (by omega) (by omega)) (by omega)]
    rfl

/-- Lexicographic comparison of character lists by code point, modelling
JavaScript string comparison (for ASCII, UTF-16 code-unit order equals
code-point order). -/
def lexLt : List Char → List Char → Bool
  | [], [] => false
  | [], _ :: _ => true
  | _ :: _, [] => false
  | a :: as, b :: bs => if a = b then lexLt as bs else decide (a < b)

/-- Lexicographic string comparison. -/
def strLt (s t : String) : Bool := lexLt s.data t.data

/-- Canonical event (services/Cloudevent and types.ts EventSchema).
`time` is the epoch-millisecond timestamp; the JavaScript Date used in
the Cloudevent variant wraps exactly this integer. -/
structure Event where
  id : String
  type : String
  subject : String
  source : String
  time : Nat
  data : Payload
deriving DecidableEq

/-- Candidate for a new event: type, subject, source and payload, with
id and time still to be assigned (services/Cloudevent EventCandidate). -/
structure EventCandidate where
  type : String
  subject : String
  source : String
  data : Payload
deriving DecidableEq

/-- Helper for `isUrlLike`: the character list contains the separator
"://" followed by at least one character. -/
def hasUrlSep : List Char → Bool
  | ':' :: '/' :: '/' :: rest => !rest.isEmpty
  | _ :: rest => hasUrlSep rest
  | [] => false

/-- Simplified model of the zod url() validator: the string contains the
scheme separator "://" followed by a nonempty remainder. The claims
settled here do not depend on the finer points of URL syntax. -/
def isUrlLike (s : String) : Bool := hasUrlSep s.data

/-- Validation of the event schema (types.ts EventSchema, mirrored by the
Cloudevent schema per its tests): id, type and subject at least 3
characters, source a URL, time a positive integer timestamp. -/
def validEvent (e : Event) : Bool :=
  3 ≤ e.id.length && 3 ≤ e.type.length && 3 ≤ e.subject.length &&
    isUrlLike e.source && 1 ≤ e.time

/-- A physical record as stored in / returned by the table. Fields are
optional so malformed or partial items are representable; `time` is an
Int so out-of-range stored timestamps (the tests use -1) are
representable. -/
structure DynamoItem where
  id : Option String
  time : Option Int
  time_type : Option String
  pk_all : Option String
  type : Option String
  subject : Option String
  source : Option String
  data : Option Payload
deriving DecidableEq

/-- Composite sort key `time_type`, built by string interpolation of the
numeric timestamp, an underscore and the event type
(EventDB.addEvent and Cloudevent.toDynamo). No zero padding is
applied to the timestamp. -/
def timeType (time : Nat) (ty : String) : String := natRepr time ++ "_" ++ ty

/-- Modelled from the spec: Cloudevent.new of src/services/Cloudevent.ts,
whose implementation file is not in the tree (only its tests and callers
are). Per the spec, it assigns a fresh unique id and the current
timestamp to the candidate and validates the resulting Event against the
full schema; freshness is modelled by passing the generated id and
timestamp explicitly. -/
def Cloudevent.new (freshId : String) (now : Nat) (c : EventCandidate) :
    Except String Event :=
  let e : Event := ⟨freshId, c.type, c.subject, c.source, now, c.data⟩
  if validEvent e then .ok e else .error "invalid event candidate"

/-- Modelled from the spec: Cloudevent.toDynamo of
src/services/Cloudevent.ts (implementation file missing from the tree).
Per the spec it is deterministic and total for any already-valid Event
and fails only if invariants were bypassed upstream; the produced shape
(epoch-millisecond time, time_type sort key, constant pk_all = "all") is
fixed by the Cloudevent tests. -/
def Cloudevent.toDynamo (e : Event) : Except String DynamoItem :=
  if validEvent e then
    .ok ⟨some e.id, some (e.time : Int), some (timeType e.time e.type),
      some "all", some e.type, some e.subject, some e.source, some e.data⟩
  else .error "invalid event"

/-- Modelled from the spec: Cloudevent.fromDynamo of
src/services/Cloudevent.ts (implementation file missing from the tree).
Per the spec it rejects records missing required derived keys (malformed
composite sort key) as well as records whose logical fields fail
validation; the Cloudevent tests fix that a missing attribute, an empty
time_type and an invalid time or subject are all rejected. -/
def Cloudevent.fromDynamo (item : DynamoItem) : Except String Event :=
  match item.id, item.time, item.time_type, item.pk_all, item.type,
      item.subject, item.source, item.data with
  | some id, some t, some tt, some _, some ty, some subj, some src, some d =>
    if tt.length = 0 then .error "invalid time_type"
    else
      let e : Event := ⟨id, ty, subj, src, t.toNat, d⟩
      if validEvent e then .ok e else .error "invalid event"
  | _, _, _, _, _, _, _, _ => .error "missing attributes"

/-- One batched write command issued to the durable store
(the single BatchWriteCommand built by EventDB.addEvents). -/
structure BatchCmd where
  items : List DynamoItem
deriving DecidableEq

/-- The conversion loop of EventDB.addEvents: converts each event with
Cloudevent.toDynamo, collecting error messages and converted items in
input order. -/
def collectDynamo : List Event → List String × List DynamoItem
  | [] => ([], [])
  | e :: rest =>
    let (errs, items) := collectDynamo rest
    match Cloudevent.toDynamo e with
    | .error msg => (msg :: errs, items)
    | .ok item => (errs, item :: items)

/-- EventDB.addEvents: converts every event, throws an aggregate error
(modelled as the list of the individual error messages, which the code
joins into one message) if any conversion failed, and otherwise issues
exactly one batched write containing every converted item. The first
component is the list of write commands actually sent to the store. -/
def EventDB.addEvents (events : List Event) :
    List BatchCmd × Option (List String) :=
  let (errors, dynamoEvents) := collectDynamo events
  if errors.isEmpty then ([⟨dynamoEvents⟩], none) else ([], some errors)

/-- The creation loop of EventDB.addNewEvents: creates each event with
Cloudevent.new, collecting error messages and created events in input
order. Each candidate is paired with the fresh id and timestamp the code
generates for it. -/
def collectNew : List (EventCandidate × String × Nat) → List String × List Event
  | [] => ([], [])
  | (c, freshId, now) :: rest =>
    let (errs, evs) := collectNew rest
    match Cloudevent.new freshId now c with
    | .error msg => (msg :: errs, evs)
    | .ok e => (errs, e :: evs)

/-- EventDB.addNewEvents: creates an event from every candidate, throws an
aggregate error if any creation failed (issuing no write), and otherwise
hands all created events to EventDB.addEvents. -/
def EventDB.addNewEvents (cands : List (EventCandidate × String × Nat)) :
    List BatchCmd × Option (List String) :=
  let (errors, events) := collectNew cands
  if errors.isEmpty then EventDB.addEvents events else ([], some errors)

/-- The keys-only projection returned by the AllEventsById index
(subject and time_type of the primary record). Fields are optional so a
corrupted projection is representable. -/
structure IndexKeys where
  subject : Option String
  time_type : Option String
deriving DecidableEq

/-- JavaScript truthiness of an optional string attribute: present and
nonempty. -/
def truthy : Option String → Bool
  | none => false
  | some s => !(s.length = 0)

/-- EventDB.fetchEvent: two-hop lookup. `idIndex` models the limit-1 query
against the AllEventsById index, `primary` models the limit-1 query
against the primary key (subject, time_type). Returns ok none when the
index has no entry; throws when the index entry is missing attributes,
when the primary record is absent (integrity error), or when the stored
record fails to parse. -/
def EventDB.fetchEvent (idIndex : String → Option IndexKeys)
    (primary : String → String → Option DynamoItem) (id : String) :
    Except String (Option Event) :=
  match idIndex id with
  | none => .ok none
  | some keys =>
    if truthy keys.subject && truthy keys.time_type then
      match keys.subject, keys.time_type with
      | some subj, some tt =>
        match primary subj tt with
        | none => .error "Event from ID-index could not be found in database."
        | some item =>
          match Cloudevent.fromDynamo item with
          | .error msg => .error ("Event is invalid: " ++ msg)
          | .ok e => .ok (some e)
      | _, _ => .error "ID-index is missing subject or time_type attribute"
    else .error "ID-index is missing subject or time_type attribute"

/-- One page of a paginated query response from the durable store: the
items of the page and the continuation cursor (LastEvaluatedKey), absent
on the final page. The cursor is opaque to the code. -/
structure QueryPage where
  items : List DynamoItem
  lastEvaluatedKey : Option String
deriving DecidableEq

/-- One query request issued by the pagination loop: the per-page limit
and the continuation cursor passed back to the store
(ExclusiveStartKey). -/
structure QueryRequest where
  limit : Nat
  exclusiveStartKey : Option String
deriving DecidableEq

/-- The item loop of EventDB.paginatedQuery: parses each returned item
with Cloudevent.fromDynamo, appending parsed events to validItems and
unparseable raw items to invalidItems, in input order. -/
def splitItems : List DynamoItem → List Event × List DynamoItem
  | [] => ([], [])
  | item :: rest =>
    let (vs, is) := splitItems rest
    match Cloudevent.fromDynamo item with
    | .ok e => (e :: vs, is)
    | .error _ => (vs, item :: is)

/-- A well-formed store response sequence for the do-while pagination
loop: nonempty, every page before the last carries a continuation
cursor, and the last page carries none. -/
def wellFormedPages : List QueryPage → Bool
  | [] => false
  | [p] => p.lastEvaluatedKey.isNone
  | p :: rest => p.lastEvaluatedKey.isSome && wellFormedPages rest

/-- EventDB.paginatedQuery: the do-while loop that requests pages with a
fixed Limit of 100, starting from the given cursor (none on the first
iteration), follows LastEvaluatedKey until the store returns none, and
accumulates the valid/invalid split of every page's items in order. The
store is modelled by the sequence of responses it returns; the result is
the list of requests issued plus the two accumulated item lists, with no
cursor exposed. -/
def EventDB.paginatedQuery :
    List QueryPage → Option String →
      List QueryRequest × List Event × List DynamoItem
  | [], _ => ([], [], [])
  | page :: rest, cursor =>
    let req : QueryRequest := ⟨100, cursor⟩
    let (vs, is) := splitItems page.items
    match page.lastEvaluatedKey with
    | none => ([req], vs, is)
    | some k =>
      let (reqs, vs2, is2) := EventDB.paginatedQuery rest (some k)
      (req :: reqs, vs ++ vs2, is ++ is2)

/-- Zero left-padding to width 2, as used by Date.prototype.toISOString. -/
def pad2 (n : Nat) : String := if n < 10 then "0" ++ natRepr n else natRepr n

/-- Zero left-padding to width 3 (milliseconds field of toISOString). -/
def pad3 (n : Nat) : String :=
  if n < 10 then "00" ++ natRepr n
  else if n < 100 then "0" ++ natRepr n
  else natRepr n

/-- Zero left-padding to width 4 (year field of toISOString). -/
def pad4 (n : Nat) : String :=
  if n < 10 then "000" ++ natRepr n
  else if n < 100 then "00" ++ natRepr n
  else if n < 1000 then "0" ++ natRepr n
  else natRepr n

/-- Gregorian civil date (year, month, day) from days since 1970-01-01,
for nonnegative day counts; the standard era-based algorithm, modelling
the calendar conversion inside Date.prototype.toISOString. -/
def civilFromDays (z0 : Nat) : Nat × Nat × Nat :=
  let z := z0 + 719468
  let era := z / 146097
  let doe := z % 146097
  let yoe := (doe - doe / 1460 + doe / 36524 - doe / 146096) / 365
  let y := yoe + era * 400
  let doy := doe - (365 * yoe + yoe / 4 - yoe / 100)
  let mp := (5 * doy + 2) / 153
  let d := doy - (153 * mp + 2) / 5 + 1
  let m := if mp < 10 then mp + 3 else mp - 9
  (if m ≤ 2 then y + 1 else y, m, d)

/-- ISO-8601 rendering of an epoch-millisecond timestamp, modelling
Date.prototype.toISOString (UTC, millisecond precision, Z suffix). -/
def isoString (ms : Nat) : String :=
  let milli := ms % 1000
  let totalSeconds := ms / 1000
  let c := civilFromDays (totalSeconds / 86400)
  let secondOfDay := totalSeconds % 86400
  pad4 c.1 ++ "-" ++ pad2 c.2.1 ++ "-" ++ pad2 c.2.2 ++ "T" ++
    pad2 (secondOfDay / 3600) ++ ":" ++ pad2 (secondOfDay % 3600 / 60) ++ ":" ++
    pad2 (secondOfDay % 60) ++ "." ++ pad3 milli ++ "Z"

example : isoString 1696543200000 = "2023-10-05T22:00:00.000Z" := by decide

/-- A DynamoDB change-feed (stream) record as seen by the publisher
lambda: the event name, the post-write image (already unmarshalled into
a DynamoItem) and the record's sequence number. All parts are optional
in the AWS record type. -/
structure StreamRecord where
  eventName : Option String
  newImage : Option DynamoItem
  sequenceNumber : Option String
deriving DecidableEq

/-- A message published to the fan-out transport: topic, body (the
serialized event, modelled by the event value itself) and the
string-valued message attributes. -/
structure PublishedMessage where
  topicArn : String
  event : Event
  attributes : List (String × String)
deriving DecidableEq

/-- The message attributes built by Publisher.publish: id, type, and the
event time rendered as an ISO-8601 string. -/
def Publisher.getAttributes (e : Event) : List (String × String) :=
  [("id", e.id), ("type", e.type), ("time", isoString e.time)]

/-- The PublishCommand built by Publisher.publish for an event. -/
def Publisher.message (topicArn : String) (e : Event) : PublishedMessage :=
  ⟨topicArn, e, Publisher.getAttributes e⟩

/-- Publisher.publish: sends the publish command to the transport
(modelled as the function `pub`, returning success or a transport
error); returns the message sent and the transport outcome. -/
def Publisher.publish (pub : PublishedMessage → Except String Unit)
    (topicArn : String) (e : Event) : PublishedMessage × Except String Unit :=
  let msg := Publisher.message topicArn e
  (msg, pub msg)

/-- Publisher.processRecord: skips (logs and returns normally, with no
publish call) records whose event name is not INSERT, records without a
post-write image, and records whose image fails to parse into a valid
Event; otherwise publishes the parsed event, propagating a transport
error. Returns the list of publish calls issued and the outcome. -/
def Publisher.processRecord (pub : PublishedMessage → Except String Unit)
    (topicArn : String) (r : StreamRecord) :
    List PublishedMessage × Except String Unit :=
  if r.eventName ≠ some "INSERT" then ([], .ok ())
  else
    match r.newImage with
    | none => ([], .ok ())
    | some img =>
      match Cloudevent.fromDynamo img with
      | .error _ => ([], .ok ())
      | .ok e =>
        let (msg, res) := Publisher.publish pub topicArn e
        ([msg], res)

/-- PublishHandler.handle: processes every record of the batch in order
inside a per-record try/catch, never aborting the loop; a record whose
processing threw contributes its SequenceNumber to batchItemFailures
when it has one. Returns the records processed (each exactly once, in
order) and the collected failure identifiers. -/
def PublishHandler.handle (pub : PublishedMessage → Except String Unit)
    (topicArn : String) : List StreamRecord → List StreamRecord × List String
  | [] => ([], [])
  | r :: rest =>
    let outcome := (Publisher.processRecord pub topicArn r).2
    let (calls, fails) := PublishHandler.handle pub topicArn rest
    match outcome with
    | .ok _ => (r :: calls, fails)
    | .error _ =>
      match r.sequenceNumber with
      | some s => (r :: calls, s :: fails)
      | none => (r :: calls, fails)

theorem natChars_length_pos (n : Nat) : 0 < (natChars n).length := by
  rw [natChars_eq]
  split <;> simp

theorem digitChar_lt_digitChar :
    ∀ a, a < 10 → ∀ b, b < 10 → a < b → digitChar a < digitChar b := by
  decide

theorem digitChar_ne_digitChar :
    ∀ a, a < 10 → ∀ b, b < 10 → a ≠ b → digitChar a ≠ digitChar b := by
  decide

theorem lexLt_drop_shared_start (a : List Char) (s t : List Char) :
    lexLt (a ++ s) (a ++ t) = lexLt s t := by
  induction a with
  | nil => rfl
  | cons x xs ih => simp [lexLt, ih]

theorem lexLt_append (a b : List Char) (s t : List Char)
    (hlen : a.length = b.length) (h : lexLt a b = true) :
    lexLt (a ++ s) (b ++ t) = true := by
  induction a generalizing b with
  | nil =>
    cases b with
    | nil => simp [lexLt] at h
    | cons y ys => simp at hlen
  | cons x xs ih =>
    cases b with
    | nil => simp at hlen
    | cons y ys =>
      by_cases hxy : x = y
      · subst hxy
        simp only [lexLt, if_pos rfl] at h
        simp only [List.cons_append, lexLt, if_pos rfl]
        exact ih ys (by simpa using hlen) h
      · simp only [lexLt, if_neg hxy] at h
        simp only [List.cons_append, lexLt, if_neg hxy]
        exact h

theorem lexLt_single (a b : Char) (h : a ≠ b) (hlt : a < b) :
    lexLt [a] [b] = true := by
  simp [lexLt, if_neg h, hlt]

/-- Core ordering fact about the decimal rendering: for timestamps whose
decimal renderings have the same number of digits, numeric order and
lexicographic order of the renderings coincide. -/
theorem natChars_lexLt (t1 : Nat) : ∀ t2, t1 < t2 →
    (natChars t1).length = (natChars t2).length →
    lexLt (natChars t1) (natChars t2) = true := by
  induction t1 using Nat.strong_induction_on with
  | _ t1 ih =>
    intro t2 hlt hlen
    by_cases h1 : t1 < 10 <;> by_cases h2 : t2 < 10
    · rw [natChars_eq t1, if_pos h1, natChars_eq t2, if_pos h2]
      exact lexLt_single _ _
        (digitChar_ne_digitChar t1 h1 t2 h2 (Nat.ne_of_lt hlt))
        (digitChar_lt_digitChar t1 h1 t2 h2 hlt)
    · exfalso
      rw [natChars_eq t1, if_pos h1, natChars_eq t2, if_neg h2] at hlen
      have := natChars_length_pos (t2 / 10)
      simp only [List.length_append, List.length_cons, List.length_nil,
        List.length_singleton] at hlen
      omega
    · omega
    · rw [natChars_eq t1, if_neg h1, natChars_eq t2, if_neg h2]
      rw [natChars_eq t1, if_neg h1, natChars_eq t2, if_neg h2] at hlen
      simp only [List.length_append, List.length_cons, List.length_nil] at hlen
      have hqlen : (natChars (t1 / 10)).length = (natChars (t2 / 10)).length := by
        omega
      have hqle : t1 / 10 ≤ t2 / 10 := Nat.div_le_div_right (Nat.le_of_lt hlt)
      rcases Nat.lt_or_ge (t1 / 10) (t2 / 10) with hq | hq
      · exact lexLt_append _ _ _ _ hqlen
          (ih (t1 / 10) (Nat.div_lt_self (by omega) (by omega)) (t2 / 10) hq hqlen)
      · have hqeq : t1 / 10 = t2 / 10 := Nat.le_antisymm hqle hq
        have hr : t1 % 10 < t2 % 10 := by
          have e1 := Nat.div_add_mod t1 10
          have e2 := Nat.div_add_mod t2 10
          omega
        rw [hqeq, lexLt_drop_shared_start]
        exact lexLt_single _ _
          (digitChar_ne_digitChar _ (Nat.mod_lt _ (by omega)) _
            (Nat.mod_lt _ (by omega)) (Nat.ne_of_lt hr))
          (digitChar_lt_digitChar _ (Nat.mod_lt _ (by omega)) _
            (Nat.mod_lt _ (by omega)) hr)

theorem timeType_length_ne_zero (t : Nat) (ty : String) :
    (timeType t ty).length ≠ 0 := by
  have h1 : (timeType t ty).length = (natRepr t).length + "_".length + ty.length := by
    simp [timeType, String.length_append]
  have h2 : "_".length = 1 := rfl
  omega

/-- Claim C1: for every valid Event, converting it to its physical storage
representation with Cloudevent.toDynamo and parsing the stored item back
with Cloudevent.fromDynamo yields the event unchanged. -/
theorem fromDynamo_toDynamo_roundtrip (e : Event) (h : validEvent e = true) :
    (Cloudevent.toDynamo e).bind Cloudevent.fromDynamo = Except.ok e := by
  simp only [Cloudevent.toDynamo, if_pos h, Except.bind, Cloudevent.fromDynamo]
  rw [if_neg (timeType_length_ne_zero e.time e.type)]
  simp only [Int.toNat_natCast]
  have he : (⟨e.id, e.type, e.subject, e.source, e.time, e.data⟩ : Event) = e :=
    rfl
  rw [he, if_pos h]

/-- A concrete event used to instantiate the theorems about events. -/
def bookBorrowedAt (idv : String) (t : Nat) : Event :=
  ⟨idv, "book.borrowed", "b111", "https://library.example.com", t, []⟩

theorem fromDynamo_toDynamo_roundtrip_witness :
    (Cloudevent.toDynamo (bookBorrowedAt "evt-1" 1696543200000)).bind
        Cloudevent.fromDynamo =
      Except.ok (bookBorrowedAt "evt-1" 1696543200000) :=
  fromDynamo_toDynamo_roundtrip _ (by decide)

/-- Claim C2, amended: for valid events on the same subject whose
stringified timestamps have the same number of decimal digits (as all
realistic millisecond timestamps of a common era do), lexical order of
the composite time_type sort keys coincides with chronological order.
The code does not zero-pad the timestamp, so the restriction to equal
digit counts is necessary. -/
theorem timeType_lex_of_time_lt (e1 e2 : Event)
    (_h1 : validEvent e1 = true) (_h2 : validEvent e2 = true)
    (_hsub : e1.subject = e2.subject) (ht : e1.time < e2.time)
    (hlen : (natRepr e1.time).length = (natRepr e2.time).length) :
    strLt (timeType e1.time e1.type) (timeType e2.time e2.type) = true := by
  have hlen' : (natChars e1.time).length = (natChars e2.time).length := hlen
  have hdata : ∀ t ty, (timeType t ty).data =
      natChars t ++ ('_' :: String.data ty) := by
    intro t ty
    simp [timeType, natRepr, String.data_append]
  show lexLt (timeType e1.time e1.type).data (timeType e2.time e2.type).data
    = true
  rw [hdata, hdata]
  exact lexLt_append _ _ _ _ hlen' (natChars_lexLt e1.time e2.time ht hlen')

theorem timeType_lex_witness :
    strLt
        (timeType (bookBorrowedAt "evt-a" 1696543200000).time
          (bookBorrowedAt "evt-a" 1696543200000).type)
        (timeType (bookBorrowedAt "evt-b" 1696543200001).time
          (bookBorrowedAt "evt-b" 1696543200001).type) = true :=
  timeType_lex_of_time_lt _ _ (by decide) (by decide) (by decide) (by decide)
    (by decide)

/-- Claim C2 counterexample: the events with times 9 and 10 are both valid
per the schema (any positive integer timestamp is allowed), share a
subject, and are chronologically ordered, yet the sort key of the
earlier event is not lexicographically smaller - it is strictly greater,
because the code does not zero-pad the stringified timestamp. -/
theorem timeType_lex_counterexample :
    validEvent (bookBorrowedAt "evt-a" 9) = true ∧
    validEvent (bookBorrowedAt "evt-b" 10) = true ∧
    (bookBorrowedAt "evt-a" 9).subject = (bookBorrowedAt "evt-b" 10).subject ∧
    (bookBorrowedAt "evt-a" 9).time < (bookBorrowedAt "evt-b" 10).time ∧
    strLt
        (timeType (bookBorrowedAt "evt-a" 9).time
          (bookBorrowedAt "evt-a" 9).type)
        (timeType (bookBorrowedAt "evt-b" 10).time
          (bookBorrowedAt "evt-b" 10).type) = false ∧
    strLt
        (timeType (bookBorrowedAt "evt-b" 10).time
          (bookBorrowedAt "evt-b" 10).type)
        (timeType (bookBorrowedAt "evt-a" 9).time
          (bookBorrowedAt "evt-a" 9).type) = true := by
  decide

/-- The error message of a failed computation, if any. -/
def errorOpt {α : Type} : Except String α → Option String
  | .error m => some m
  | .ok _ => none

theorem collectDynamo_eq (events : List Event) :
    collectDynamo events =
      (events.filterMap (fun e => errorOpt (Cloudevent.toDynamo e)),
        events.filterMap (fun e => (Cloudevent.toDynamo e).toOption)) := by
  induction events with
  | nil => rfl
  | cons e rest ih =>
    simp only [collectDynamo, ih, List.filterMap_cons]
    cases htd : Cloudevent.toDynamo e <;> simp [errorOpt, Except.toOption, htd]

theorem collectNew_eq (cands : List (EventCandidate × String × Nat)) :
    collectNew cands =
      (cands.filterMap
          (fun c => errorOpt (Cloudevent.new c.2.1 c.2.2 c.1)),
        cands.filterMap
          (fun c => (Cloudevent.new c.2.1 c.2.2 c.1).toOption)) := by
  induction cands with
  | nil => rfl
  | cons c rest ih =>
    obtain ⟨cand, freshId, now⟩ := c
    simp only [collectNew, ih, List.filterMap_cons]
    cases hn : Cloudevent.new freshId now cand <;>
      simp [errorOpt, Except.toOption, hn]

theorem addEvents_eq (events : List Event) :
    EventDB.addEvents events =
      if (events.filterMap (fun e => errorOpt (Cloudevent.toDynamo e))).isEmpty
      then ([⟨events.filterMap (fun e => (Cloudevent.toDynamo e).toOption)⟩],
        none)
      else ([],
        some (events.filterMap (fun e => errorOpt (Cloudevent.toDynamo e)))) := by
  simp only [EventDB.addEvents, collectDynamo_eq]

theorem addNewEvents_eq (cands : List (EventCandidate × String × Nat)) :
    EventDB.addNewEvents cands =
      if (cands.filterMap
          (fun c => errorOpt (Cloudevent.new c.2.1 c.2.2 c.1))).isEmpty
      then EventDB.addEvents
        (cands.filterMap (fun c => (Cloudevent.new c.2.1 c.2.2 c.1).toOption))
      else ([],
        some (cands.filterMap
          (fun c => errorOpt (Cloudevent.new c.2.1 c.2.2 c.1)))) := by
  simp only [EventDB.addNewEvents, collectNew_eq]

theorem length_filterMap_eq_length_filter {α β : Type} (f : α → Option β)
    (p : α → Bool) (h : ∀ a, (f a).isSome = p a) (l : List α) :
    (l.filterMap f).length = (l.filter p).length := by
  induction l with
  | nil => rfl
  | cons a rest ih =>
    have ha := h a
    rw [List.filterMap_cons, List.filter_cons]
    cases hfa : f a with
    | none =>
      rw [hfa] at ha
      simp only [Option.isSome_none] at ha
      simp [← ha, ih]
    | some b =>
      rw [hfa] at ha
      simp only [Option.isSome_some] at ha
      simp [← ha, ih]

theorem errorOpt_isSome {α : Type} (x : Except String α) :
    (errorOpt x).isSome = !x.isOk := by
  cases x <;> rfl

/-- Claim C3: batch append is all-or-nothing at the validation stage. If
any event fails conversion/validation, EventDB.addEvents throws an
aggregate error listing one message per failing event and issues no
write command at all; if all events convert, it issues exactly one
batched write containing every converted item. Likewise
EventDB.addNewEvents throws an aggregate error and writes nothing when
any candidate fails creation/validation. -/
theorem addEvents_validation_gate (events : List Event)
    (cands : List (EventCandidate × String × Nat)) :
    ((∃ e ∈ events, (Cloudevent.toDynamo e).isOk = false) →
      (EventDB.addEvents events).1 = [] ∧
      (EventDB.addEvents events).2 =
        some (events.filterMap (fun e => errorOpt (Cloudevent.toDynamo e))) ∧
      (events.filterMap (fun e => errorOpt (Cloudevent.toDynamo e))).length =
        (events.filter (fun e => !(Cloudevent.toDynamo e).isOk)).length) ∧
    ((∀ e ∈ events, (Cloudevent.toDynamo e).isOk = true) →
      EventDB.addEvents events =
        ([⟨events.filterMap (fun e => (Cloudevent.toDynamo e).toOption)⟩],
          none)) ∧
    ((∃ c ∈ cands, (Cloudevent.new c.2.1 c.2.2 c.1).isOk = false) →
      (EventDB.addNewEvents cands).1 = [] ∧
      (EventDB.addNewEvents cands).2.isSome = true) := by
  refine ⟨?_, ?_, ?_⟩
  · rintro ⟨e, he, hfail⟩
    have herr : ∃ m, errorOpt (Cloudevent.toDynamo e) = some m := by
      cases h : Cloudevent.toDynamo e with
      | error m => exact ⟨m, rfl⟩
      | ok v => rw [h] at hfail; simp [Except.isOk, Except.toBool] at hfail
    obtain ⟨m, hm⟩ := herr
    have hne : events.filterMap (fun e => errorOpt (Cloudevent.toDynamo e)) ≠ [] :=
      List.ne_nil_of_mem (List.mem_filterMap.mpr ⟨e, he, hm⟩)
    have hemp :
        (events.filterMap (fun e => errorOpt (Cloudevent.toDynamo e))).isEmpty
          = false := by
      cases hc :
        (events.filterMap (fun e => errorOpt (Cloudevent.toDynamo e))).isEmpty
      · rfl
      · exact absurd (List.isEmpty_iff.mp hc) hne
    rw [addEvents_eq, hemp]
    refine ⟨rfl, rfl, ?_⟩
    exact length_filterMap_eq_length_filter _ _
      (fun a => errorOpt_isSome (Cloudevent.toDynamo a)) events
  · intro hall
    have hemp :
        (events.filterMap (fun e => errorOpt (Cloudevent.toDynamo e))).isEmpty
          = true := by
      rw [List.isEmpty_iff, List.filterMap_eq_nil_iff]
      intro e he
      have := hall e he
      cases h : Cloudevent.toDynamo e with
      | error m => rw [h] at this; simp [Except.isOk, Except.toBool] at this
      | ok v => rfl
    rw [addEvents_eq, hemp]
    rfl
  · rintro ⟨c, hc, hfail⟩
    have herr : ∃ m, errorOpt (Cloudevent.new c.2.1 c.2.2 c.1) = some m := by
      cases h : Cloudevent.new c.2.1 c.2.2 c.1 with
      | error m => exact ⟨m, rfl⟩
      | ok v => rw [h] at hfail; simp [Except.isOk, Except.toBool] at hfail
    obtain ⟨m, hm⟩ := herr
    have hne :
        cands.filterMap (fun c => errorOpt (Cloudevent.new c.2.1 c.2.2 c.1))
          ≠ [] :=
      List.ne_nil_of_mem (List.mem_filterMap.mpr ⟨c, hc, hm⟩)
    have hemp :
        (cands.filterMap
          (fun c => errorOpt (Cloudevent.new c.2.1 c.2.2 c.1))).isEmpty
          = false := by
      cases hcc :
        (cands.filterMap
          (fun c => errorOpt (Cloudevent.new c.2.1 c.2.2 c.1))).isEmpty
      · rfl
      · exact absurd (List.isEmpty_iff.mp hcc) hne
    rw [addNewEvents_eq, hemp]
    exact ⟨rfl, rfl⟩

/-- An invalid event: its id is shorter than the 3-character minimum. -/
def badIdEvent : Event :=
  ⟨"x", "book.borrowed", "b111", "https://library.example.com", 9, []⟩

theorem addEvents_validation_gate_witness :
    (EventDB.addEvents [badIdEvent, bookBorrowedAt "evt-1" 5]).1 = [] ∧
    (EventDB.addEvents [badIdEvent, bookBorrowedAt "evt-1" 5]).2 =
      some ([badIdEvent, bookBorrowedAt "evt-1" 5].filterMap
        (fun e => errorOpt (Cloudevent.toDynamo e))) ∧
    ([badIdEvent, bookBorrowedAt "evt-1" 5].filterMap
        (fun e => errorOpt (Cloudevent.toDynamo e))).length =
      ([badIdEvent, bookBorrowedAt "evt-1" 5].filter
        (fun e => !(Cloudevent.toDynamo e).isOk)).length :=
  (addEvents_validation_gate [badIdEvent, bookBorrowedAt "evt-1" 5] []).1
    ⟨badIdEvent, by decide, by decide⟩

/-- Claim C4: EventDB.fetchEvent returns the not-found result (ok none,
i.e. null) exactly when the id-index query returns no entry; and
whenever the id-index returns keys but the primary-key lookup finds no
record, the call fails with the integrity error, never with the
null/not-found result. -/
theorem fetchEvent_null_iff_index_miss (idIndex : String → Option IndexKeys)
    (primary : String → String → Option DynamoItem) (id : String) :
    (EventDB.fetchEvent idIndex primary id = .ok none ↔ idIndex id = none) ∧
    (∀ keys subj tt, idIndex id = some keys → keys.subject = some subj →
      keys.time_type = some tt → subj.length ≠ 0 → tt.length ≠ 0 →
      primary subj tt = none →
      EventDB.fetchEvent idIndex primary id =
        .error "Event from ID-index could not be found in database.") := by
  constructor
  · cases hidx : idIndex id with
    | none => simp [EventDB.fetchEvent, hidx]
    | some keys =>
      simp only [EventDB.fetchEvent, hidx, Option.some.injEq]
      constructor
      · intro h
        exfalso
        revert h
        by_cases h1 : truthy keys.subject && truthy keys.time_type
        · rw [if_pos h1]
          cases hs : keys.subject with
          | none => rw [hs] at h1; simp [truthy] at h1
          | some subj =>
            cases htt : keys.time_type with
            | none => rw [htt] at h1; simp [truthy] at h1
            | some tt =>
              cases hp : primary subj tt with
              | none => simp [hp]
              | some item =>
                cases hf : Cloudevent.fromDynamo item <;> simp [hp, hf]
        · rw [if_neg h1]; simp
      · intro h
        simp at h
  · intro keys subj tt hidx hs htt hsubne httne hp
    simp [EventDB.fetchEvent, hidx, hs, htt, hp, truthy, hsubne, httne]

/-- A concrete id-index oracle with a single projected entry. -/
def idxWithEntry : String → Option IndexKeys := fun i =>
  if i = "evt-1" then some ⟨some "b111", some "9_book.borrowed"⟩ else none

/-- A concrete primary-key oracle that never finds a record. -/
def primaryEmpty : String → String → Option DynamoItem := fun _ _ => none

theorem fetchEvent_null_iff_index_miss_witness :
    EventDB.fetchEvent idxWithEntry primaryEmpty "evt-1" =
      .error "Event from ID-index could not be found in database." :=
  (fetchEvent_null_iff_index_miss idxWithEntry primaryEmpty "evt-1").2
    ⟨some "b111", some "9_book.borrowed"⟩ "b111" "9_book.borrowed"
    (by decide) rfl rfl (by decide) (by decide) rfl

theorem splitItems_eq (items : List DynamoItem) :
    splitItems items =
      (items.filterMap (fun i => (Cloudevent.fromDynamo i).toOption),
        items.filter (fun i => !(Cloudevent.fromDynamo i).isOk)) := by
  induction items with
  | nil => rfl
  | cons item rest ih =>
    simp only [splitItems, ih, List.filterMap_cons, List.filter_cons]
    cases hf : Cloudevent.fromDynamo item <;>
      simp [Except.toOption, Except.isOk, Except.toBool, hf]

/-- One-step unfolding of the pagination loop on a nonempty response
sequence. -/
theorem paginatedQuery_cons (page : QueryPage) (rest : List QueryPage)
    (cursor : Option String) :
    EventDB.paginatedQuery (page :: rest) cursor =
      match page.lastEvaluatedKey with
      | none => ([⟨100, cursor⟩], (splitItems page.items).1,
          (splitItems page.items).2)
      | some k =>
        (⟨100, cursor⟩ :: (EventDB.paginatedQuery rest (some k)).1,
          (splitItems page.items).1 ++
            (EventDB.paginatedQuery rest (some k)).2.1,
          (splitItems page.items).2 ++
            (EventDB.paginatedQuery rest (some k)).2.2) := by
  cases hk : page.lastEvaluatedKey with
  | none =>
    rcases hsp : splitItems page.items with ⟨vs, is⟩
    simp [EventDB.paginatedQuery, hk, hsp]
  | some k =>
    rcases hsp : splitItems page.items with ⟨vs, is⟩
    rcases hpq : EventDB.paginatedQuery rest (some k) with ⟨reqs, vs2, is2⟩
    simp [EventDB.paginatedQuery, hk, hsp, hpq]

/-- Closed form of the pagination loop for a well-formed response
sequence: one request per page, each with Limit 100 and the previous
page's cursor, and the valid/invalid split of the concatenation of all
pages' items. -/
theorem paginatedQuery_char (pages : List QueryPage) : ∀ cursor : Option String,
    wellFormedPages pages = true →
    EventDB.paginatedQuery pages cursor =
      ((cursor :: (pages.map (fun p => p.lastEvaluatedKey)).dropLast).map
          (fun k => (⟨100, k⟩ : QueryRequest)),
        ((pages.map (fun p => p.items)).flatten).filterMap
          (fun i => (Cloudevent.fromDynamo i).toOption),
        ((pages.map (fun p => p.items)).flatten).filter
          (fun i => !(Cloudevent.fromDynamo i).isOk)) := by
  induction pages with
  | nil => intro c h; simp [wellFormedPages] at h
  | cons p rest ih =>
    intro c h
    rw [paginatedQuery_cons]
    cases rest with
    | nil =>
      have hnone : p.lastEvaluatedKey = none := by
        simpa [wellFormedPages, Option.isNone_iff_eq_none] using h
      rw [hnone]
      simp [splitItems_eq]
    | cons q rest2 =>
      have h' : p.lastEvaluatedKey.isSome = true ∧
          wellFormedPages (q :: rest2) = true := by
        simpa [wellFormedPages, Bool.and_eq_true] using h
      obtain ⟨k, hk⟩ := Option.isSome_iff_exists.mp h'.1
      rw [hk]
      simp only [ih (some k) h'.2, splitItems_eq]
      simp [hk, List.filterMap_append, List.filter_append]

theorem length_filter_add_length_filter_not {α : Type} (p : α → Bool)
    (l : List α) :
    (l.filter p).length + (l.filter (fun a => !(p a))).length = l.length := by
  induction l with
  | nil => rfl
  | cons a rest ih =>
    cases hp : p a <;> simp [List.filter_cons, hp] <;> omega

theorem toOption_isSome_eq_isOk {α : Type} (x : Except String α) :
    x.toOption.isSome = x.isOk := by
  cases x <;> rfl

/-- Claim C7: for every query operation backed by the pagination loop and
every well-formed response sequence from the store, each returned item
lands in exactly one of validItems (those parsing to a valid Event via
Cloudevent.fromDynamo) and invalidItems (the rest): validItems are
exactly the successfully parsed items, invalidItems are exactly the
unparseable raw items, their sizes add up to the total number of items
(nothing dropped, nothing duplicated), and the query returns a result
rather than failing. -/
theorem paginatedQuery_partition (pages : List QueryPage)
    (cursor : Option String) (hwf : wellFormedPages pages = true) :
    (EventDB.paginatedQuery pages cursor).2.1 =
      ((pages.map (fun p => p.items)).flatten).filterMap
        (fun i => (Cloudevent.fromDynamo i).toOption) ∧
    (EventDB.paginatedQuery pages cursor).2.2 =
      ((pages.map (fun p => p.items)).flatten).filter
        (fun i => !(Cloudevent.fromDynamo i).isOk) ∧
    (EventDB.paginatedQuery pages cursor).2.1.length +
        (EventDB.paginatedQuery pages cursor).2.2.length =
      ((pages.map (fun p => p.items)).flatten).length := by
  rw [paginatedQuery_char pages cursor hwf]
  refine ⟨rfl, rfl, ?_⟩
  have h1 :
      (((pages.map (fun p => p.items)).flatten).filterMap
        (fun i => (Cloudevent.fromDynamo i).toOption)).length =
      (((pages.map (fun p => p.items)).flatten).filter
        (fun i => (Cloudevent.fromDynamo i).isOk)).length :=
    length_filterMap_eq_length_filter _ _
      (fun i => toOption_isSome_eq_isOk (Cloudevent.fromDynamo i)) _
  rw [h1]
  exact length_filter_add_length_filter_not
    (fun i => (Cloudevent.fromDynamo i).isOk) _

/-- Claim C8: the pagination loop requests every page with the fixed
per-page Limit of 100, keeps following the continuation cursor (the
first request carries the initial cursor, every later request carries
the previous page's LastEvaluatedKey) until the store returns no cursor,
issuing exactly one request per page, and accumulates all pages' items
in page order; the returned value consists of the two item lists only,
exposing no cursor to the caller. -/
theorem paginatedQuery_pagination (pages : List QueryPage)
    (cursor : Option String) (hwf : wellFormedPages pages = true) :
    (EventDB.paginatedQuery pages cursor).1.length = pages.length ∧
    (∀ r ∈ (EventDB.paginatedQuery pages cursor).1, r.limit = 100) ∧
    (EventDB.paginatedQuery pages cursor).1.map
        (fun r => r.exclusiveStartKey) =
      cursor :: (pages.map (fun p => p.lastEvaluatedKey)).dropLast ∧
    (EventDB.paginatedQuery pages cursor).2.1 =
      ((pages.map (fun p => p.items)).flatten).filterMap
        (fun i => (Cloudevent.fromDynamo i).toOption) := by
  have hne : pages ≠ [] := by
    intro hnil
    rw [hnil] at hwf
    simp [wellFormedPages] at hwf
  rw [paginatedQuery_char pages cursor hwf]
  refine ⟨?_, ?_, ?_, rfl⟩
  · simp only [List.length_map, List.length_cons, List.length_dropLast]
    have : pages.length ≠ 0 := fun h => hne (List.length_eq_zero.mp h)
    omega
  · intro r hr
    obtain ⟨k, _, hk⟩ := List.mem_map.mp hr
    rw [← hk]
  · simp only [List.map_map]
    have hid : ((fun r : QueryRequest => r.exclusiveStartKey) ∘
        fun k => (⟨100, k⟩ : QueryRequest)) = id := rfl
    rw [hid, List.map_id]

/-- Characterization of the handler loop: every record is processed
exactly once in order, and the failure list is exactly the sequence
numbers of the records whose processing threw, among those that carry a
sequence number. -/
theorem handle_eq (pub : PublishedMessage → Except String Unit)
    (topicArn : String) (records : List StreamRecord) :
    PublishHandler.handle pub topicArn records =
      (records,
        records.filterMap (fun r =>
          if (Publisher.processRecord pub topicArn r).2.isOk then none
          else r.sequenceNumber)) := by
  induction records with
  | nil => rfl
  | cons r rest ih =>
    rcases hrec : PublishHandler.handle pub topicArn rest with ⟨calls, fails⟩
    rw [hrec] at ih
    have hc : calls = rest := congrArg Prod.fst ih
    have hf : fails = rest.filterMap (fun r =>
        if (Publisher.processRecord pub topicArn r).2.isOk then none
        else r.sequenceNumber) := congrArg Prod.snd ih
    simp only [PublishHandler.handle, hrec, List.filterMap_cons]
    cases ho : (Publisher.processRecord pub topicArn r).2 with
    | ok _ => simp [Except.isOk, Except.toBool, ho, hc, hf]
    | error e =>
      cases hs : r.sequenceNumber <;>
        simp [Except.isOk, Except.toBool, ho, hs, hc, hf]

/-- The skip paths of Publisher.processRecord: a record that is not an
INSERT, has no post-write image, or whose image fails to parse, is
handled without a publish call and without throwing. -/
theorem processRecord_skips_aux (pub : PublishedMessage → Except String Unit)
    (topicArn : String) (r : StreamRecord)
    (h : r.eventName ≠ some "INSERT" ∨ r.newImage = none ∨
      (∃ img, r.newImage = some img ∧
        (Cloudevent.fromDynamo img).isOk = false)) :
    Publisher.processRecord pub topicArn r = ([], Except.ok ()) := by
  rcases h with h | h | ⟨img, himg, hfail⟩
  · simp [Publisher.processRecord, h]
  · by_cases hn : r.eventName = some "INSERT"
    · simp [Publisher.processRecord, hn, h]
    · simp [Publisher.processRecord, hn]
  · by_cases hn : r.eventName = some "INSERT"
    · cases hf : Cloudevent.fromDynamo img with
      | error m => simp [Publisher.processRecord, hn, himg, hf]
      | ok e => rw [hf] at hfail; simp [Except.isOk, Except.toBool] at hfail
    · simp [Publisher.processRecord, hn]

/-- The publish path of Publisher.processRecord: an INSERT record whose
image parses issues exactly one publish call with the message built by
Publisher.publish, and the outcome is the transport's outcome. -/
theorem processRecord_publish_aux (pub : PublishedMessage → Except String Unit)
    (topicArn : String) (r : StreamRecord) (img : DynamoItem) (e : Event)
    (h1 : r.eventName = some "INSERT") (h2 : r.newImage = some img)
    (h3 : Cloudevent.fromDynamo img = .ok e) :
    Publisher.processRecord pub topicArn r =
      ([Publisher.message topicArn e],
        pub (Publisher.message topicArn e)) := by
  simp [Publisher.processRecord, h1, h2, h3, Publisher.publish]

/-- Claim C5: PublishHandler.handle processes every record of the batch
exactly once, in order, never stopping early on a throwing record; the
returned batchItemFailures contains the sequence identifier of every
identified record whose processing threw and of no other record; and in
the concrete scenario of a batch with one transport-error record and one
parse-error record, it returns exactly the transport-error record's
identifier. -/
theorem handle_batch (pub : PublishedMessage → Except String Unit)
    (topicArn : String) (records : List StreamRecord) :
    (PublishHandler.handle pub topicArn records).1 = records ∧
    (∀ r ∈ records, ∀ s,
      (Publisher.processRecord pub topicArn r).2.isOk = false →
      r.sequenceNumber = some s →
      s ∈ (PublishHandler.handle pub topicArn records).2) ∧
    (∀ s ∈ (PublishHandler.handle pub topicArn records).2,
      ∃ r ∈ records,
        (Publisher.processRecord pub topicArn r).2.isOk = false ∧
        r.sequenceNumber = some s) ∧
    (∀ r1 r2 img1 e1 s1 s2,
      r1.eventName = some "INSERT" → r1.newImage = some img1 →
      Cloudevent.fromDynamo img1 = .ok e1 →
      (pub (Publisher.message topicArn e1)).isOk = false →
      r1.sequenceNumber = some s1 →
      (r2.eventName = some "INSERT" ∧ ∃ img2, r2.newImage = some img2 ∧
        (Cloudevent.fromDynamo img2).isOk = false) →
      r2.sequenceNumber = some s2 →
      (PublishHandler.handle pub topicArn [r1, r2]).2 = [s1]) := by
  refine ⟨?_, ?_, ?_, ?_⟩
  · rw [handle_eq]
  · intro r hr s hfail hs
    rw [handle_eq]
    refine List.mem_filterMap.mpr ⟨r, hr, ?_⟩
    rw [hfail]
    simpa using hs
  · intro s hs
    rw [handle_eq] at hs
    obtain ⟨r, hr, hfr⟩ := List.mem_filterMap.mp hs
    refine ⟨r, hr, ?_, ?_⟩
    · cases hok : (Publisher.processRecord pub topicArn r).2.isOk
      · rfl
      · rw [hok] at hfr; simp at hfr
    · cases hok : (Publisher.processRecord pub topicArn r).2.isOk
      · rw [hok] at hfr; simpa using hfr
      · rw [hok] at hfr; simp at hfr
  · intro r1 r2 img1 e1 s1 s2 hn1 hi1 hp1 htr hs1 hskip hs2
    obtain ⟨hn2, img2, hi2, hp2⟩ := hskip
    have h1 := processRecord_publish_aux pub topicArn r1 img1 e1 hn1 hi1 hp1
    have h2 := processRecord_skips_aux pub topicArn r2
      (Or.inr (Or.inr ⟨img2, hi2, hp2⟩))
    rw [handle_eq]
    simp only [List.filterMap_cons, List.filterMap_nil, h1, h2, htr]
    simp [htr, hs1, Except.isOk, Except.toBool]

/-- Claim C6: a change-feed record whose event name is not INSERT, whose
post-write image is missing, or whose image fails to parse into a valid
Event, is processed without throwing and with zero publish calls, and
contributes no entry to the batch failure set. -/
theorem processRecord_skip (pub : PublishedMessage → Except String Unit)
    (topicArn : String) (r : StreamRecord)
    (h : r.eventName ≠ some "INSERT" ∨ r.newImage = none ∨
      (∃ img, r.newImage = some img ∧
        (Cloudevent.fromDynamo img).isOk = false)) :
    Publisher.processRecord pub topicArn r = ([], Except.ok ()) ∧
    (PublishHandler.handle pub topicArn [r]).2 = [] := by
  have hp := processRecord_skips_aux pub topicArn r h
  refine ⟨hp, ?_⟩
  rw [handle_eq]
  simp [hp, Except.isOk, Except.toBool]

/-- Claim C9: for every change-feed record that parses into a valid
Event, the message published to the fan-out transport carries the
string-valued attributes id (the event id), type (the event type) and
time (the event time rendered as an ISO-8601 string). -/
theorem publish_attributes (pub : PublishedMessage → Except String Unit)
    (topicArn : String) (r : StreamRecord) (img : DynamoItem) (e : Event)
    (h1 : r.eventName = some "INSERT") (h2 : r.newImage = some img)
    (h3 : Cloudevent.fromDynamo img = .ok e) :
    (Publisher.processRecord pub topicArn r).1 =
      [Publisher.message topicArn e] ∧
    ("id", e.id) ∈ (Publisher.message topicArn e).attributes ∧
    ("type", e.type) ∈ (Publisher.message topicArn e).attributes ∧
    ("time", isoString e.time) ∈ (Publisher.message topicArn e).attributes := by
  rw [processRecord_publish_aux pub topicArn r img e h1 h2 h3]
  refine ⟨rfl, ?_, ?_, ?_⟩ <;> simp [Publisher.message, Publisher.getAttributes]

/-- Claim C10: in PublishHandler.handle, a record whose processing throws
but whose SequenceNumber is absent contributes no entry to the returned
batchItemFailures: the batch outcome is the same as if the record were
not in the batch at all, so it is silently excluded from the retry
set. -/
theorem handle_drops_seqless (pub : PublishedMessage → Except String Unit)
    (topicArn : String) (r : StreamRecord)
    (recs1 recs2 : List StreamRecord)
    (h1 : r.sequenceNumber = none)
    (h2 : (Publisher.processRecord pub topicArn r).2.isOk = false) :
    (PublishHandler.handle pub topicArn (recs1 ++ r :: recs2)).2 =
      (PublishHandler.handle pub topicArn (recs1 ++ recs2)).2 := by
  rw [handle_eq, handle_eq]
  simp only [List.filterMap_append, List.filterMap_cons, h2, h1]
  simp

/-- A well-formed stored item (the physical image of a valid event). -/
def goodItem : DynamoItem :=
  ⟨some "evt-1", some 9, some "9_book.borrowed", some "all",
    some "book.borrowed", some "b111", some "https://library.example.com",
    some []⟩

/-- A malformed stored item: several required attributes are missing and
the composite sort key is empty. -/
def badItem : DynamoItem :=
  ⟨some "evt-2", some 9, some "", none, none, none, none, none⟩

/-- A two-page well-formed response sequence containing a parseable and
an unparseable item. -/
def pagesW : List QueryPage :=
  [⟨[goodItem, badItem], some "k1"⟩, ⟨[goodItem], none⟩]

theorem paginatedQuery_partition_witness :
    (EventDB.paginatedQuery pagesW none).2.1 =
      ((pagesW.map (fun p => p.items)).flatten).filterMap
        (fun i => (Cloudevent.fromDynamo i).toOption) ∧
    (EventDB.paginatedQuery pagesW none).2.2 =
      ((pagesW.map (fun p => p.items)).flatten).filter
        (fun i => !(Cloudevent.fromDynamo i).isOk) ∧
    (EventDB.paginatedQuery pagesW none).2.1.length +
        (EventDB.paginatedQuery pagesW none).2.2.length =
      ((pagesW.map (fun p => p.items)).flatten).length :=
  paginatedQuery_partition pagesW none (by decide)

theorem paginatedQuery_pagination_witness :
    (EventDB.paginatedQuery pagesW (some "k0")).1.length = pagesW.length ∧
    (∀ r ∈ (EventDB.paginatedQuery pagesW (some "k0")).1, r.limit = 100) ∧
    (EventDB.paginatedQuery pagesW (some "k0")).1.map
        (fun r => r.exclusiveStartKey) =
      some "k0" :: (pagesW.map (fun p => p.lastEvaluatedKey)).dropLast ∧
    (EventDB.paginatedQuery pagesW (some "k0")).2.1 =
      ((pagesW.map (fun p => p.items)).flatten).filterMap
        (fun i => (Cloudevent.fromDynamo i).toOption) :=
  paginatedQuery_pagination pagesW (some "k0") (by decide)

/-- A transport oracle that always fails with a transport error. -/
def pubFail : PublishedMessage → Except String Unit :=
  fun _ => .error "transport error"

/-- A transport oracle that always succeeds. -/
def pubOk : PublishedMessage → Except String Unit := fun _ => .ok ()

/-- An INSERT record with a parseable image and sequence number 1. -/
def insertRecordGood : StreamRecord := ⟨some "INSERT", some goodItem, some "1"⟩

/-- An INSERT record with an unparseable image and sequence number 2. -/
def insertRecordBadImg : StreamRecord :=
  ⟨some "INSERT", some badItem, some "2"⟩

/-- A non-INSERT (MODIFY) record. -/
def modifyRecord : StreamRecord := ⟨some "MODIFY", some goodItem, some "3"⟩

/-- A record that fails in transport but carries no sequence number. -/
def seqlessFailRecord : StreamRecord := ⟨some "INSERT", some goodItem, none⟩

theorem handle_batch_witness :
    (PublishHandler.handle pubFail "topic"
      [insertRecordGood, insertRecordBadImg]).2 = ["1"] :=
  (handle_batch pubFail "topic" [insertRecordGood, insertRecordBadImg]).2.2.2
    insertRecordGood insertRecordBadImg goodItem (bookBorrowedAt "evt-1" 9)
    "1" "2" rfl rfl rfl (by decide) rfl
    ⟨rfl, badItem, rfl, by decide⟩ rfl

theorem processRecord_skip_witness :
    Publisher.processRecord pubOk "topic" modifyRecord =
      ([], Except.ok ()) ∧
    (PublishHandler.handle pubOk "topic" [modifyRecord]).2 = [] :=
  processRecord_skip pubOk "topic" modifyRecord (Or.inl (by decide))

theorem publish_attributes_witness :
    (Publisher.processRecord pubOk "topic" insertRecordGood).1 =
      [Publisher.message "topic" (bookBorrowedAt "evt-1" 9)] ∧
    ("id", (bookBorrowedAt "evt-1" 9).id) ∈
      (Publisher.message "topic" (bookBorrowedAt "evt-1" 9)).attributes ∧
    ("type", (bookBorrowedAt "evt-1" 9).type) ∈
      (Publisher.message "topic" (bookBorrowedAt "evt-1" 9)).attributes ∧
    ("time", isoString (bookBorrowedAt "evt-1" 9).time) ∈
      (Publisher.message "topic" (bookBorrowedAt "evt-1" 9)).attributes :=
  publish_attributes pubOk "topic" insertRecordGood goodItem
    (bookBorrowedAt "evt-1" 9) rfl rfl rfl

theorem handle_drops_seqless_witness :
    (PublishHandler.handle pubFail "topic"
      ([] ++ seqlessFailRecord :: [insertRecordBadImg])).2 =
      (PublishHandler.handle pubFail "topic" ([] ++ [insertRecordBadImg])).2 :=
  handle_drops_seqless pubFail "topic" seqlessFailRecord [] [insertRecordBadImg]
    rfl (by decide)
